import Mathlib

/-!
Verification model of the temperature-app measurement storage and retrieval
layer (src/temperature.rs, src/database.rs, src/graphql.rs).

Modelling conventions:
- f64 payloads are modelled as rational numbers: the properties under study
  concern the exact arithmetic structure of the code, not binary rounding.
- chrono DateTime of Utc is modelled as seconds since the Unix epoch plus a
  nanosecond component; the Gregorian calendar conversion used by chrono
  formatting is modelled by the standard civil-from-days algorithm, and the
  four-digit year formatting covers years 0 through 9999.
- HTTP traffic (reqwest) and URL joining (the url crate) are modelled as
  functions supplied in a Database record: joinUrl may fail (malformed URL)
  and send may fail (transport error) or return an arbitrary response.
- serde_json values are modelled by an inductive Json type and the serde
  deserialization of the Hit and HitSource structs is modelled field by field
  with serde semantics (missing or null optional fields give none, a present
  field of the wrong shape is an error, unknown fields are ignored).
-/

namespace TemperatureApp

/-- Model of the Celsius newtype over f64 from src/temperature.rs. -/
structure Celsius where
  val : ℚ
deriving DecidableEq, Repr

/-- Model of the Fahrenheit newtype over f64 from src/temperature.rs. -/
structure Fahrenheit where
  val : ℚ
deriving DecidableEq, Repr

/-- Model of impl Add for Celsius : adds the two wrapped values. -/
instance : Add Celsius := ⟨fun a b => ⟨a.val + b.val⟩⟩

/-- Model of impl From Celsius for Fahrenheit : F = C * 1.8 + 32.0. -/
def celsiusToFahrenheit (c : Celsius) : Fahrenheit :=
  ⟨c.val * 1.8 + 32⟩

/-- Model of chrono DateTime of Utc : whole seconds since the Unix epoch and
a nanosecond component. -/
structure DateTimeUtc where
  secs : Int
  nanos : Nat
deriving DecidableEq, Repr

/-- Model of date.with_nanosecond(0).unwrap() : drop sub-second precision. -/
def withNanosecond0 (t : DateTimeUtc) : DateTimeUtc :=
  ⟨t.secs, 0⟩

/-- Days since the Unix epoch of a timestamp (floor division, as in chrono). -/
def epochDay (t : DateTimeUtc) : Int :=
  t.secs / 86400

/-- Seconds elapsed within the day of a timestamp. -/
def secondOfDay (t : DateTimeUtc) : Nat :=
  (t.secs % 86400).toNat

/-- Gregorian calendar date (year, month, day) of a day count since the Unix
epoch; the standard civil-from-days algorithm, modelling chrono. -/
def civilFromDays (z : Int) : Int × Nat × Nat :=
  let z2 : Int := z + 719468
  let era : Int := z2 / 146097
  let doe : Nat := (z2 % 146097).toNat
  let yoe : Nat := (doe - doe / 1460 + doe / 36524 - doe / 146096) / 365
  let doy : Nat := doe - (365 * yoe + yoe / 4 - yoe / 100)
  let mp : Nat := (5 * doy + 2) / 153
  let d : Nat := doy - (153 * mp + 2) / 5 + 1
  let m : Nat := if mp < 10 then mp + 3 else mp - 9
  let y : Int := (yoe : Int) + era * 400
  (y + (if m ≤ 2 then 1 else 0), m, d)

/-- Day count since the Unix epoch of a Gregorian calendar date; the standard
days-from-civil algorithm, modelling chrono. -/
def daysFromCivil (y : Int) (m d : Nat) : Int :=
  let yAdj : Int := if m ≤ 2 then y - 1 else y
  let era : Int := yAdj / 400
  let yoe : Nat := (yAdj % 400).toNat
  let mp : Nat := if 2 < m then m - 3 else m + 9
  let doy : Nat := (153 * mp + 2) / 5 + d - 1
  let doe : Nat := yoe * 365 + yoe / 4 - yoe / 100 + doy
  era * 146097 + (doe : Int) - 719468

/-- Two-digit zero-padded decimal rendering of a number below 100. -/
def pad2 (n : Nat) : List Char :=
  [Nat.digitChar (n / 10 % 10), Nat.digitChar (n % 10)]

/-- Four-digit zero-padded decimal rendering of a number below 10000. -/
def pad4 (n : Nat) : List Char :=
  [Nat.digitChar (n / 1000 % 10), Nat.digitChar (n / 100 % 10),
   Nat.digitChar (n / 10 % 10), Nat.digitChar (n % 10)]

/-- Model of date.format("%Y%m%d") on a UTC timestamp. -/
def formatYYYYMMDD (t : DateTimeUtc) : String :=
  match civilFromDays (epochDay t) with
  | (y, m, d) => String.mk (pad4 y.toNat ++ pad2 m ++ pad2 d)

/-- Model of date.format("%Y%m%dT%H%M%S") on a UTC timestamp. -/
def formatYYYYMMDDTHHMMSS (t : DateTimeUtc) : String :=
  match civilFromDays (epochDay t) with
  | (y, m, d) =>
    String.mk (pad4 y.toNat ++ pad2 m ++ pad2 d ++ ['T'] ++
      pad2 (secondOfDay t / 3600) ++ pad2 (secondOfDay t / 60 % 60) ++
      pad2 (secondOfDay t % 60))

/-- Model of date.to_rfc3339() for a whole-second UTC timestamp, as produced
after truncation on the write path. -/
def toRfc3339 (t : DateTimeUtc) : String :=
  match civilFromDays (epochDay t) with
  | (y, m, d) =>
    String.mk (pad4 y.toNat ++ ['-'] ++ pad2 m ++ ['-'] ++ pad2 d ++ ['T'] ++
      pad2 (secondOfDay t / 3600) ++ [':'] ++ pad2 (secondOfDay t / 60 % 60) ++
      [':'] ++ pad2 (secondOfDay t % 60) ++ ['+', '0', '0', ':', '0', '0'])

/-- Model of serde_json::Value. -/
inductive Json where
  | null : Json
  | bool : Bool → Json
  | num : ℚ → Json
  | str : String → Json
  | arr : List Json → Json
  | obj : List (String × Json) → Json

/-- First-match association lookup, modelling map key lookup (keys of the
maps built on the wire are unique). -/
def lookupAssoc {α : Type} : List (String × α) → String → Option α
  | [], _ => none
  | (k, v) :: rest, key => if k = key then some v else lookupAssoc rest key

/-- Model of serde_json::Value::get on an object (none on non-objects and
missing keys). -/
def Json.get (j : Json) (key : String) : Option Json :=
  match j with
  | .obj fields => lookupAssoc fields key
  | _ => none

/-- Numeric value of a decimal digit character, as accepted by the datetime
string parser. -/
def digitVal (c : Char) : Option Nat :=
  if c.isDigit then some (c.toNat - 48) else none

/-- Whether a year is a Gregorian leap year. -/
def isLeap (y : Int) : Bool :=
  y % 4 = 0 && (y % 100 != 0 || y % 400 = 0)

/-- Number of days in a Gregorian month. -/
def daysInMonth (y : Int) (m : Nat) : Nat :=
  if m = 2 then (if isLeap y then 29 else 28)
  else if m = 4 || m = 6 || m = 9 || m = 11 then 30
  else 31

/-- Numeric value of two decimal digit characters. -/
def digits2 (a b : Char) : Option Nat := do
  let x ← digitVal a
  let y ← digitVal b
  pure (10 * x + y)

/-- Numeric value of four decimal digit characters. -/
def digits4 (a b c d : Char) : Option Nat := do
  let x ← digits2 a b
  let y ← digits2 c d
  pure (100 * x + y)

/-- Combination of parsed calendar and clock fields into a timestamp, with
the range checks chrono performs. -/
def mkDateTime (y : Int) (mo da hh mi se : Nat) : Option DateTimeUtc := do
  guard (1 ≤ mo ∧ mo ≤ 12 ∧ 1 ≤ da ∧ da ≤ daysInMonth y mo ∧
    hh < 24 ∧ mi < 60 ∧ se < 60)
  pure ⟨daysFromCivil y mo da * 86400 + (hh * 3600 + mi * 60 + se : Nat), 0⟩

/-- Model of chrono RFC 3339 datetime parsing as used when deserializing the
date field of a hit: accepts the canonical rendering of a whole-second UTC
timestamp (the shape this application writes); the real parser accepts more
spellings, which nothing here depends on. -/
def parseRfc3339 (s : String) : Option DateTimeUtc :=
  match s.data with
  | [y1, y2, y3, y4, c1, m1, m2, c2, d1, d2, c3, h1, h2, c4, n1, n2, c5,
     s1, s2, c6, z1, z2, c7, z3, z4] => do
    guard (c1 = '-' ∧ c2 = '-' ∧ c3 = 'T' ∧ c4 = ':' ∧ c5 = ':' ∧
      c6 = '+' ∧ z1 = '0' ∧ z2 = '0' ∧ c7 = ':' ∧ z3 = '0' ∧ z4 = '0')
    let y ← digits4 y1 y2 y3 y4
    let mo ← digits2 m1 m2
    let da ← digits2 d1 d2
    let hh ← digits2 h1 h2
    let mi ← digits2 n1 n2
    let se ← digits2 s1 s2
    mkDateTime y mo da hh mi se
  | _ => none

/-- Model of the DatabaseError enum from src/database.rs. -/
inductive DatabaseError where
  | InvalidUrl : DatabaseError
  | RequestFailed : DatabaseError
  | InvalidJson : DatabaseError
  | UnexpectedResponse : DatabaseError
deriving DecidableEq, Repr

/-- Model of the MeasurementResult struct from src/database.rs. -/
structure MeasurementResult where
  address : Option String
  date : Option DateTimeUtc
  temperature : Option Celsius
deriving DecidableEq, Repr

/-- Model of the HitSource struct from src/database.rs (all fields are
independently optional). -/
structure HitSource where
  address : Option String
  temp_c : Option ℚ
  date : Option DateTimeUtc
deriving DecidableEq, Repr

/-- Model of the Hit struct from src/database.rs. -/
structure Hit where
  _id : String
  _index : String
  _score : Option ℚ
  _source : HitSource
  _type : String
deriving DecidableEq, Repr

/-- Serde decoding of a required String field (missing, null or non-string
values are errors). -/
def decodeReqString (j : Option Json) : Option String :=
  match j with
  | some (.str s) => some s
  | _ => none

/-- Serde decoding of an Option String field (missing or null give none,
a present non-string value is an error). -/
def decodeOptString (j : Option Json) : Option (Option String) :=
  match j with
  | none => some none
  | some .null => some none
  | some (.str s) => some (some s)
  | _ => none

/-- Serde decoding of an Option f64 field (missing or null give none,
a present non-numeric value is an error). -/
def decodeOptNum (j : Option Json) : Option (Option ℚ) :=
  match j with
  | none => some none
  | some .null => some none
  | some (.num q) => some (some q)
  | _ => none

/-- Serde decoding of an Option DateTime field (missing or null give none,
a present value must be a parseable datetime string). -/
def decodeOptDate (j : Option Json) : Option (Option DateTimeUtc) :=
  match j with
  | none => some none
  | some .null => some none
  | some (.str s) => (parseRfc3339 s).map some
  | _ => none

/-- Serde deserialization of a HitSource from a JSON value; unknown fields
are ignored, per serde defaults. -/
def decodeHitSource (j : Json) : Option HitSource :=
  match j with
  | .obj _ => do
    let address ← decodeOptString (j.get "address")
    let temp_c ← decodeOptNum (j.get "temp_c")
    let date ← decodeOptDate (j.get "date")
    pure ⟨address, temp_c, date⟩
  | _ => none

/-- Serde deserialization of a Hit from a JSON value. -/
def decodeHit (j : Json) : Option Hit :=
  match j with
  | .obj _ => do
    let i ← decodeReqString (j.get "_id")
    let idx ← decodeReqString (j.get "_index")
    let score ← decodeOptNum (j.get "_score")
    let src ← match j.get "_source" with
      | some v => decodeHitSource v
      | none => none
    let ty ← decodeReqString (j.get "_type")
    pure ⟨i, idx, score, src, ty⟩
  | _ => none

/-- Serde deserialization of a Vec of Hit from a JSON value
(serde_json::value::from_value at src/database.rs line 192). -/
def decodeHits (j : Json) : Option (List Hit) :=
  match j with
  | .arr xs => xs.mapM decodeHit
  | _ => none

/-- Model of an HTTP request issued through reqwest. -/
structure HttpRequest where
  method : String
  url : String
  body : Json

/-- Model of an HTTP response: an arbitrary status code and a body that
either parses as JSON or does not. -/
structure HttpResponse where
  status : Nat
  body : Option Json

/-- Model of the Database struct from src/database.rs: the base URL is
modelled by its join behaviour and the reqwest client by a send function
(none models a transport failure). -/
structure Database where
  joinUrl : String → Option String
  send : HttpRequest → Option HttpResponse

/-- Bucket key of a (truncated) timestamp: the index name built at
src/database.rs line 106. -/
def bucketKey (date : DateTimeUtc) : String :=
  formatYYYYMMDD date

/-- Document identity of a (truncated) timestamp and address: the id built
at src/database.rs line 109. -/
def documentId (date : DateTimeUtc) (address : String) : String :=
  formatYYYYMMDDTHHMMSS date ++ "-" ++ address

/-- Document path of a (truncated) timestamp and address: the path built at
src/database.rs line 111. -/
def insertPath (date : DateTimeUtc) (address : String) : String :=
  bucketKey date ++ "/_doc/" ++ documentId date address

/-- Body of the replace-or-create write built at src/database.rs
lines 122 to 126. -/
def insertBody (address : String) (date : DateTimeUtc) (temperature : Celsius) : Json :=
  Json.obj [("address", .str address), ("date", .str (toRfc3339 date)),
    ("temp_c", .num temperature.val)]

/-- Model of Database::insert_measurement from src/database.rs. -/
def insert_measurement (db : Database) (address : String) (date : DateTimeUtc)
    (temperature : Celsius) : Except DatabaseError Unit :=
  let date := withNanosecond0 date
  let path := insertPath date address
  match db.joinUrl path with
  | none => .error .InvalidUrl
  | some url =>
    match db.send ⟨"PUT", url, insertBody address date temperature⟩ with
    | none => .error .RequestFailed
    | some _ => .ok ()

/-- Body of the search request built at src/database.rs lines 154 to 166. -/
def searchBody (address : String) (limit : Nat) : Json :=
  Json.obj [("size", .num limit), ("sort", .obj [("date", .str "desc")]),
    ("query", .obj [("bool", .obj [("filter", .obj [("term",
      .obj [("address", .str address)])])])])]

/-- Conversion of a decoded Hit into a MeasurementResult
(src/database.rs lines 199 to 203). -/
def measurementOfHit (hit : Hit) : MeasurementResult :=
  { address := hit._source.address
    date := hit._source.date
    temperature := hit._source.temp_c.map Celsius.mk }

/-- Envelope handling of a search response body, from the point where the
response JSON value is in hand (src/database.rs lines 179 to 208): unwrap
hits within hits, deserialize the hit records, convert and reverse. -/
def parseSearchResponse (value : Json) : Except DatabaseError (List MeasurementResult) :=
  match value.get "hits" with
  | none => .error .UnexpectedResponse
  | some hits1 =>
    match hits1.get "hits" with
    | none => .error .UnexpectedResponse
    | some hits2 =>
      match decodeHits hits2 with
      | none => .error .UnexpectedResponse
      | some items => .ok ((items.map measurementOfHit).reverse)

/-- Model of Database::select_measurements_for_device from src/database.rs. -/
def select_measurements_for_device (db : Database) (address : String)
    (limit : Nat) : Except DatabaseError (List MeasurementResult) :=
  match db.joinUrl "/*/_search" with
  | none => .error .InvalidUrl
  | some url =>
    match db.send ⟨"POST", url, searchBody address limit⟩ with
    | none => .error .RequestFailed
    | some resp =>
      match resp.body with
      | none => .error .InvalidJson
      | some value => parseSearchResponse value

/-- Model of the Device struct from src/graphql.rs: a known device from the
static configuration. -/
structure Device where
  address : String
  name : Option String
  description : Option String
  adjustment : Celsius
deriving DecidableEq, Repr

/-- Model of the DeviceRef enum from src/graphql.rs: a device that is either
known from configuration or unknown (only its address is known). -/
inductive DeviceRef where
  | known : Device → DeviceRef
  | unknown : String → DeviceRef
deriving DecidableEq, Repr

/-- Model of DeviceRef::adjustment (src/graphql.rs lines 36 to 44): the
configured adjustment for a known device, zero for an unknown one. -/
def DeviceRef.adjustment : DeviceRef → Celsius
  | .known device => device.adjustment
  | .unknown _ => ⟨0⟩

/-- Model of the address resolver on DeviceRef (src/graphql.rs
lines 51 to 56). -/
def DeviceRef.address : DeviceRef → String
  | .known device => device.address
  | .unknown address => address

/-- Model of the name resolver on DeviceRef (src/graphql.rs
lines 59 to 64). -/
def DeviceRef.name : DeviceRef → Option String
  | .known device => device.name
  | .unknown _ => none

/-- Model of the description resolver on DeviceRef (src/graphql.rs
lines 67 to 72). -/
def DeviceRef.description : DeviceRef → Option String
  | .known device => device.description
  | .unknown _ => none

/-- Model of the GraphQL-layer Measurement struct from src/graphql.rs. -/
structure Measurement where
  device : DeviceRef
  date : DateTimeUtc
  temperature : Celsius
deriving DecidableEq, Repr

/-- Model of Measurement::adjusted_temperature (src/graphql.rs
lines 143 to 149). -/
def Measurement.adjusted_temperature (m : Measurement) : Celsius :=
  m.temperature + m.device.adjustment

/-- Model of the temp_c resolver on Measurement (src/graphql.rs
lines 159 to 161). -/
def Measurement.temp_c (m : Measurement) : Celsius :=
  m.adjusted_temperature

/-- Model of the temp_f resolver on Measurement (src/graphql.rs
lines 164 to 166). -/
def Measurement.temp_f (m : Measurement) : Fahrenheit :=
  celsiusToFahrenheit m.adjusted_temperature

/-- Model of the temp_raw_c resolver on Measurement (src/graphql.rs
lines 169 to 171). -/
def Measurement.temp_raw_c (m : Measurement) : ℚ :=
  m.temperature.val

/-- Model of the count clamp at src/graphql.rs line 112 : the i32 count
defaults to 10, is capped at 100 with std::cmp::min, and is then cast to u32
with two's-complement wrapping. -/
def clampCount (count : Option Int) : Nat :=
  ((min (count.getD 10) 100) % 2 ^ 32).toNat

/-- Conversion of one database MeasurementResult into a GraphQL Measurement
in the measurements resolver (src/graphql.rs lines 120 to 129): some only
when both the temperature and the date are present. -/
def measurementToGraphql (device : DeviceRef) (m : MeasurementResult) :
    Option Measurement :=
  match m.temperature, m.date with
  | some temperature, some date => some ⟨device, date, temperature⟩
  | _, _ => none

/-- Model of the measurements resolver on DeviceRef (src/graphql.rs
lines 107 to 133). -/
def DeviceRef.measurements (self : DeviceRef) (db : Database)
    (count : Option Int) : Except DatabaseError (List Measurement) :=
  let address := self.address
  let count := clampCount count
  match select_measurements_for_device db address count with
  | .error e => .error e
  | .ok ms => .ok (ms.filterMap (measurementToGraphql self))

/-- Resolution of a BLE address against the immutable device table
(src/graphql.rs lines 193 to 196). -/
def deviceRefFor (devices : List (String × Device)) (address : String) :
    DeviceRef :=
  match lookupAssoc devices address with
  | some device => .known device
  | none => .unknown address

/-- Model of Query::device (src/graphql.rs lines 192 to 199): total, always
returns Ok. -/
def Query.device (devices : List (String × Device)) (address : String) :
    Except String DeviceRef :=
  .ok (deviceRefFor devices address)

/-- Model of Mutation::addMeasurement (src/graphql.rs lines 211 to 233);
the current time used when no timestamp is supplied is passed explicitly. -/
def Mutation.addMeasurement (db : Database) (devices : List (String × Device))
    (now : DateTimeUtc) (address : String) (temp_c : Celsius)
    (date : Option DateTimeUtc) : Except DatabaseError Measurement :=
  let date := withNanosecond0 (date.getD now)
  match insert_measurement db address date temp_c with
  | .error e => .error e
  | .ok _ => .ok ⟨deviceRefFor devices address, date, temp_c⟩

/-! Concrete sample data used by the witness theorems. -/

/-- A sample hit object in the shape the engine returns. -/
def sampleHit (id : String) (dateStr : String) (source : List (String × Json)) : Json :=
  Json.obj [("_id", .str id), ("_index", .str "20200101"), ("_score", .null),
    ("_source", .obj (source ++ [("date", .str dateStr)])),
    ("_type", .str "_doc")]

/-- A sample three-hit search response, sorted by timestamp descending. -/
def sampleResponse3 : Json :=
  Json.obj [("hits", .obj [("hits", .arr
    [sampleHit "c" "2020-01-01T00:00:02+00:00"
       [("address", .str "f4d55889b1d6"), ("temp_c", .num 23)],
     sampleHit "b" "2020-01-01T00:00:01+00:00"
       [("address", .str "f4d55889b1d6"), ("temp_c", .num 22)],
     sampleHit "a" "2020-01-01T00:00:00+00:00"
       [("address", .str "f4d55889b1d6"), ("temp_c", .num 21)]])])]

/-- The decoded form of the hits inside sampleResponse3. -/
def sampleHits3 : List Hit :=
  [⟨"c", "20200101", none, ⟨some "f4d55889b1d6", some 23, some ⟨1577836802, 0⟩⟩, "_doc"⟩,
   ⟨"b", "20200101", none, ⟨some "f4d55889b1d6", some 22, some ⟨1577836801, 0⟩⟩, "_doc"⟩,
   ⟨"a", "20200101", none, ⟨some "f4d55889b1d6", some 21, some ⟨1577836800, 0⟩⟩, "_doc"⟩]

/-- A database whose engine always answers with sampleResponse3. -/
def sampleDb3 : Database :=
  ⟨fun p => some p, fun _ => some ⟨200, some sampleResponse3⟩⟩

/-- A sample two-hit search response: one well-formed record and one record
missing the temp_c field, sorted by timestamp descending. -/
def sampleResponse5 : Json :=
  Json.obj [("hits", .obj [("hits", .arr
    [sampleHit "c" "2020-01-01T00:00:02+00:00"
       [("address", .str "f4d55889b1d6"), ("temp_c", .num 21)],
     sampleHit "b" "2020-01-01T00:00:01+00:00"
       [("address", .str "f4d55889b1d6")]])])]

/-- The measurement results decoded from sampleResponse5, already reversed
into chronological order. -/
def sampleMs5 : List MeasurementResult :=
  [⟨some "f4d55889b1d6", some ⟨1577836801, 0⟩, none⟩,
   ⟨some "f4d55889b1d6", some ⟨1577836802, 0⟩, some ⟨21⟩⟩]

/-- A database whose engine always answers with sampleResponse5. -/
def sampleDb5 : Database :=
  ⟨fun p => some p, fun _ => some ⟨200, some sampleResponse5⟩⟩

/-- A database whose engine accepts every write but reports an engine-side
error: status 500 with an error payload. -/
def sampleDb10 : Database :=
  ⟨fun p => some ("http://localhost:9200/" ++ p),
   fun _ => some ⟨500, some (Json.obj [("error", .str "index_failure")])⟩⟩

/-- A database whose transport always fails. -/
def sampleDbFail : Database :=
  ⟨fun p => some p, fun _ => none⟩

/-- A database whose base URL rejects every join. -/
def sampleDbBadUrl : Database :=
  ⟨fun _ => none, fun _ => none⟩

/-- A database whose engine answers with a body that is not valid JSON. -/
def sampleDbBadBody : Database :=
  ⟨fun p => some p, fun _ => some ⟨200, none⟩⟩

/-- A sample one-entry device table. -/
def sampleDevices : List (String × Device) :=
  [("f4d55889b1d6", ⟨"f4d55889b1d6", some "living room", none, ⟨2⟩⟩)]

/-! Helper lemmas. -/

/-- Addition on Celsius adds the wrapped values. -/
theorem Celsius.add_val (a b : Celsius) : (a + b).val = a.val + b.val := rfl

/-- Nat.digitChar is injective on digits (finite check). -/
theorem digitChar_inj_fin :
    ∀ a b : Fin 10, Nat.digitChar a.val = Nat.digitChar b.val → a = b := by decide

/-- Nat.digitChar is injective below 10. -/
theorem digitChar_inj (a b : Nat) (ha : a < 10) (hb : b < 10)
    (h : Nat.digitChar a = Nat.digitChar b) : a = b :=
  congrArg Fin.val (digitChar_inj_fin ⟨a, ha⟩ ⟨b, hb⟩ h)

/-- The fixed-width rendering of a (year, month, day) triple is injective
within the formatted ranges. -/
theorem formatYMD_inj (y1 m1 d1 y2 m2 d2 : Nat)
    (hy1 : y1 ≤ 9999) (hy2 : y2 ≤ 9999) (hm1 : m1 ≤ 99) (hm2 : m2 ≤ 99)
    (hd1 : d1 ≤ 99) (hd2 : d2 ≤ 99)
    (h : String.mk (pad4 y1 ++ pad2 m1 ++ pad2 d1) =
      String.mk (pad4 y2 ++ pad2 m2 ++ pad2 d2)) :
    y1 = y2 ∧ m1 = m2 ∧ d1 = d2 := by
  have hdata := congrArg String.data h
  simp only [pad4, pad2, List.cons_append, List.nil_append,
    List.cons.injEq, and_true] at hdata
  obtain ⟨h1, h2, h3, h4, h5, h6, h7, h8⟩ := hdata
  have g1 := digitChar_inj _ _ (Nat.mod_lt _ (by norm_num)) (Nat.mod_lt _ (by norm_num)) h1
  have g2 := digitChar_inj _ _ (Nat.mod_lt _ (by norm_num)) (Nat.mod_lt _ (by norm_num)) h2
  have g3 := digitChar_inj _ _ (Nat.mod_lt _ (by norm_num)) (Nat.mod_lt _ (by norm_num)) h3
  have g4 := digitChar_inj _ _ (Nat.mod_lt _ (by norm_num)) (Nat.mod_lt _ (by norm_num)) h4
  have g5 := digitChar_inj _ _ (Nat.mod_lt _ (by norm_num)) (Nat.mod_lt _ (by norm_num)) h5
  have g6 := digitChar_inj _ _ (Nat.mod_lt _ (by norm_num)) (Nat.mod_lt _ (by norm_num)) h6
  have g7 := digitChar_inj _ _ (Nat.mod_lt _ (by norm_num)) (Nat.mod_lt _ (by norm_num)) h7
  have g8 := digitChar_inj _ _ (Nat.mod_lt _ (by norm_num)) (Nat.mod_lt _ (by norm_num)) h8
  refine ⟨by omega, by omega, by omega⟩

/-- Truncation does not change the epoch day. -/
theorem epochDay_withNanosecond0 (t : DateTimeUtc) :
    epochDay (withNanosecond0 t) = epochDay t := rfl

/-! Claim theorems. -/

/-- C9: for every Celsius value C the Celsius-to-Fahrenheit conversion
returns exactly C * 1.8 + 32; in particular 0 degrees Celsius converts
to exactly 32 degrees Fahrenheit. -/
theorem celsius_to_fahrenheit_exact (c : Celsius) :
    (celsiusToFahrenheit c).val = c.val * 1.8 + 32 ∧
    celsiusToFahrenheit ⟨0⟩ = ⟨32⟩ := by
  refine ⟨rfl, ?_⟩
  show Fahrenheit.mk ((0 : ℚ) * 1.8 + 32) = ⟨32⟩
  norm_num

/-- C8: the effective (adjusted) reading of a raw value on a device with
adjustment A, minus the effective reading of the same raw value on a device
with adjustment zero (known with zero offset, or unknown), equals exactly A. -/
theorem adjustment_transparency (raw adj : Celsius) (dA d0 : Device)
    (date : DateTimeUtc) (hA : dA.adjustment = adj) (h0 : d0.adjustment = ⟨0⟩) :
    (Measurement.adjusted_temperature ⟨.known dA, date, raw⟩).val -
      (Measurement.adjusted_temperature ⟨.known d0, date, raw⟩).val = adj.val ∧
    ∀ s : String,
      (Measurement.adjusted_temperature ⟨.known dA, date, raw⟩).val -
        (Measurement.adjusted_temperature ⟨.unknown s, date, raw⟩).val = adj.val := by
  constructor
  · simp [Measurement.adjusted_temperature, DeviceRef.adjustment, hA, h0,
      Celsius.add_val]
  · intro s
    simp [Measurement.adjusted_temperature, DeviceRef.adjustment, hA,
      Celsius.add_val]

/-- Witness for C8 at a concrete raw reading of 20 and adjustment of 2. -/
theorem adjustment_transparency_witness :
    (Measurement.adjusted_temperature
        ⟨.known ⟨"a", none, none, ⟨2⟩⟩, ⟨0, 0⟩, ⟨20⟩⟩).val -
      (Measurement.adjusted_temperature
        ⟨.known ⟨"b", none, none, ⟨0⟩⟩, ⟨0, 0⟩, ⟨20⟩⟩).val = (2 : ℚ) :=
  (adjustment_transparency ⟨20⟩ ⟨2⟩ ⟨"a", none, none, ⟨2⟩⟩ ⟨"b", none, none, ⟨0⟩⟩
    ⟨0, 0⟩ rfl rfl).1

/-- C7: every returned measurement reports adjusted Celsius (raw plus the
device adjustment), Fahrenheit converted from the adjusted Celsius, and the
raw temperature unchanged; the write body persists exactly the raw value. -/
theorem read_adjusted_write_raw :
    (∀ m : Measurement,
      m.temp_c = ⟨m.temperature.val + m.device.adjustment.val⟩ ∧
      m.temp_f = celsiusToFahrenheit m.adjusted_temperature ∧
      m.temp_f = ⟨m.adjusted_temperature.val * 1.8 + 32⟩ ∧
      m.temp_raw_c = m.temperature.val) ∧
    (∀ (address : String) (date : DateTimeUtc) (temperature : Celsius),
      (insertBody address date temperature).get "temp_c" =
        some (.num temperature.val)) := by
  constructor
  · intro m
    exact ⟨rfl, rfl, rfl, rfl⟩
  · intro address date temperature
    rfl

/-- C6: device resolution is total and never fails: a known address yields
the Known variant with that device record, an unknown address yields the
Unknown variant with no name, no description, an adjustment of zero and
adjusted readings equal to raw readings. -/
theorem device_resolution_total (devices : List (String × Device))
    (address : String) :
    (∀ dev, lookupAssoc devices address = some dev →
      Query.device devices address = .ok (.known dev)) ∧
    (lookupAssoc devices address = none →
      Query.device devices address = .ok (.unknown address)) ∧
    DeviceRef.name (.unknown address) = none ∧
    DeviceRef.description (.unknown address) = none ∧
    DeviceRef.adjustment (.unknown address) = ⟨0⟩ ∧
    (∀ (d : DateTimeUtc) (t : Celsius),
      Measurement.adjusted_temperature ⟨.unknown address, d, t⟩ = t) := by
  refine ⟨?_, ?_, rfl, rfl, rfl, ?_⟩
  · intro dev h
    simp [Query.device, deviceRefFor, h]
  · intro h
    simp [Query.device, deviceRefFor, h]
  · intro d t
    show Celsius.mk (t.val + 0) = t
    rw [add_zero]

/-- Witness for C6 at a present and at an absent address of the sample
device table. -/
theorem device_resolution_total_witness :
    Query.device sampleDevices "f4d55889b1d6" =
      .ok (.known ⟨"f4d55889b1d6", some "living room", none, ⟨2⟩⟩) ∧
    Query.device sampleDevices "unknownaddr" = .ok (.unknown "unknownaddr") :=
  ⟨(device_resolution_total sampleDevices "f4d55889b1d6").1
      ⟨"f4d55889b1d6", some "living room", none, ⟨2⟩⟩ rfl,
   (device_resolution_total sampleDevices "unknownaddr").2.1 rfl⟩

/-- C1 counterexample: a requested count of -1 passes the min cap unchanged
and the cast to u32 wraps it to 4294967295, so the limit passed to the store
exceeds 100. -/
theorem clamp_negative_counterexample :
    clampCount (some (-1)) = 4294967295 ∧ 100 < clampCount (some (-1)) := by
  constructor <;> decide

/-- C1 amended: an unspecified count becomes 10, 50 passes unchanged, 1000
is capped to 100, and every nonnegative requested count yields a limit of at
most 100; negative counts wrap modulo 2 to the 32 and may exceed 100. -/
theorem clamp_spec :
    clampCount none = 10 ∧ clampCount (some 50) = 50 ∧
    clampCount (some 1000) = 100 ∧
    ∀ c : Int, 0 ≤ c → clampCount (some c) ≤ 100 := by
  refine ⟨by decide, by decide, by decide, ?_⟩
  intro c hc
  simp only [clampCount, Option.getD_some]
  have h0 : (0 : Int) ≤ min c 100 := le_min hc (by norm_num)
  have h1 : min c 100 ≤ 100 := min_le_right c 100
  rw [Int.emod_eq_of_lt h0 (lt_of_le_of_lt h1 (by norm_num))]
  omega

/-- Witness for C1 amended at the nonnegative requested count 7. -/
theorem clamp_spec_witness : 0 ≤ (7 : Int) ∧ clampCount (some 7) ≤ 100 :=
  ⟨by decide, clamp_spec.2.2.2 7 (by decide)⟩

/-- C2 counterexample: an envelope lacking the nested hits-within-hits
structure and a hit record that does not decode both produce the SAME typed
error, UnexpectedResponse; there is no separate InvalidResponse error. -/
theorem envelope_error_counterexample :
    parseSearchResponse (Json.obj []) = .error .UnexpectedResponse ∧
    parseSearchResponse
        (Json.obj [("hits", .obj [("hits", .arr [Json.obj []])])]) =
      .error .UnexpectedResponse := by
  exact ⟨rfl, rfl⟩

/-- C2 amended: a missing envelope (no hits key, or no nested hits key) and
a hit record of the wrong shape all fail with UnexpectedResponse (one shared
typed error); the distinct InvalidJson error arises only when the response
body is not valid JSON at all. -/
theorem response_error_taxonomy (value : Json) :
    (value.get "hits" = none →
      parseSearchResponse value = .error .UnexpectedResponse) ∧
    (∀ h1, value.get "hits" = some h1 → h1.get "hits" = none →
      parseSearchResponse value = .error .UnexpectedResponse) ∧
    (∀ h1 h2, value.get "hits" = some h1 → h1.get "hits" = some h2 →
      decodeHits h2 = none →
      parseSearchResponse value = .error .UnexpectedResponse) ∧
    (∀ (db : Database) (address : String) (limit : Nat) (url : String)
      (resp : HttpResponse), db.joinUrl "/*/_search" = some url →
      db.send ⟨"POST", url, searchBody address limit⟩ = some resp →
      resp.body = none →
      select_measurements_for_device db address limit = .error .InvalidJson) := by
  refine ⟨?_, ?_, ?_, ?_⟩
  · intro h
    simp only [parseSearchResponse, h]
  · intro h1 hv hh
    simp only [parseSearchResponse, hv, hh]
  · intro h1 h2 hv hh hd
    simp only [parseSearchResponse, hv, hh, hd]
  · intro db address limit url resp hu hs hb
    simp only [select_measurements_for_device, hu, hs, hb]

/-- Witness for C2 amended: a response without a hits key, a response whose
hit record lacks required fields, and a non-JSON body, each at concrete
inputs. -/
theorem response_error_taxonomy_witness :
    Json.null.get "hits" = none ∧
    parseSearchResponse Json.null = .error .UnexpectedResponse ∧
    parseSearchResponse
        (Json.obj [("hits", .obj [("hits", .str "oops")])]) =
      .error .UnexpectedResponse ∧
    select_measurements_for_device sampleDbBadBody "f4d55889b1d6" 10 =
      .error .InvalidJson :=
  ⟨rfl,
   (response_error_taxonomy Json.null).1 rfl,
   (response_error_taxonomy
      (Json.obj [("hits", .obj [("hits", .str "oops")])])).2.2.1
     (Json.obj [("hits", .str "oops")]) (.str "oops") rfl rfl rfl,
   (response_error_taxonomy Json.null).2.2.2 sampleDbBadBody "f4d55889b1d6" 10
     "/*/_search" ⟨200, none⟩ rfl rfl rfl⟩

/-- C3: every successful read returns exactly the reverse of the hit
sequence delivered by the engine, so a most-recent-first response comes back
in ascending chronological order. -/
theorem select_reverses (db : Database) (address : String) (limit : Nat)
    (url : String) (resp : HttpResponse) (value h1 h2 : Json)
    (items : List Hit)
    (hu : db.joinUrl "/*/_search" = some url)
    (hs : db.send ⟨"POST", url, searchBody address limit⟩ = some resp)
    (hb : resp.body = some value)
    (hv : value.get "hits" = some h1) (hh : h1.get "hits" = some h2)
    (hd : decodeHits h2 = some items) :
    select_measurements_for_device db address limit =
      .ok ((items.map measurementOfHit).reverse) := by
  simp only [select_measurements_for_device, hu, hs, hb,
    parseSearchResponse, hv, hh, hd]

/-- Witness for C3: three stored measurements at seconds t1 < t2 < t3
delivered most-recent-first come back in order [t1, t2, t3]. -/
theorem select_reverses_witness :
    select_measurements_for_device sampleDb3 "f4d55889b1d6" 3 =
      .ok ((sampleHits3.map measurementOfHit).reverse) ∧
    (sampleHits3.map measurementOfHit).reverse.map MeasurementResult.date =
      [some ⟨1577836800, 0⟩, some ⟨1577836801, 0⟩, some ⟨1577836802, 0⟩] :=
  ⟨select_reverses sampleDb3 "f4d55889b1d6" 3 "/*/_search"
      ⟨200, some sampleResponse3⟩ sampleResponse3
      (Json.obj [("hits", .arr
        [sampleHit "c" "2020-01-01T00:00:02+00:00"
           [("address", .str "f4d55889b1d6"), ("temp_c", .num 23)],
         sampleHit "b" "2020-01-01T00:00:01+00:00"
           [("address", .str "f4d55889b1d6"), ("temp_c", .num 22)],
         sampleHit "a" "2020-01-01T00:00:00+00:00"
           [("address", .str "f4d55889b1d6"), ("temp_c", .num 21)]])])
      (Json.arr
        [sampleHit "c" "2020-01-01T00:00:02+00:00"
           [("address", .str "f4d55889b1d6"), ("temp_c", .num 23)],
         sampleHit "b" "2020-01-01T00:00:01+00:00"
           [("address", .str "f4d55889b1d6"), ("temp_c", .num 22)],
         sampleHit "a" "2020-01-01T00:00:00+00:00"
           [("address", .str "f4d55889b1d6"), ("temp_c", .num 21)]])
      sampleHits3 rfl rfl rfl rfl rfl (by rfl),
   by rfl⟩

/-- C5: a record appears as a measurement exactly when both its timestamp
and temperature are present; others are dropped without error, and a record
missing only the address is still included. -/
theorem leniency (db : Database) (dref : DeviceRef) (count : Option Int)
    (ms : List MeasurementResult)
    (h : select_measurements_for_device db dref.address (clampCount count) =
      .ok ms) :
    dref.measurements db count =
      .ok (ms.filterMap (measurementToGraphql dref)) ∧
    (∀ m : MeasurementResult, (measurementToGraphql dref m).isSome ↔
      (m.temperature.isSome ∧ m.date.isSome)) ∧
    (∀ (d : DateTimeUtc) (t : Celsius),
      measurementToGraphql dref ⟨none, some d, some t⟩ =
        some ⟨dref, d, t⟩) := by
  refine ⟨?_, ?_, fun d t => rfl⟩
  · simp only [DeviceRef.measurements, h]
  · intro m
    rcases m with ⟨a, d, t⟩
    cases d <;> cases t <;> simp [measurementToGraphql]

/-- Witness for C5: a response with one well-formed record and one record
missing temp_c yields exactly one measurement, and a record missing only the
address is still converted. -/
theorem leniency_witness :
    DeviceRef.measurements (.unknown "f4d55889b1d6") sampleDb5 (some 5) =
      .ok (sampleMs5.filterMap (measurementToGraphql (.unknown "f4d55889b1d6"))) ∧
    sampleMs5.filterMap (measurementToGraphql (.unknown "f4d55889b1d6")) =
      [⟨.unknown "f4d55889b1d6", ⟨1577836802, 0⟩, ⟨21⟩⟩] ∧
    measurementToGraphql (.unknown "f4d55889b1d6") ⟨none, some ⟨5, 0⟩, some ⟨20⟩⟩ =
      some ⟨.unknown "f4d55889b1d6", ⟨5, 0⟩, ⟨20⟩⟩ :=
  ⟨(leniency sampleDb5 (.unknown "f4d55889b1d6") (some 5) sampleMs5 rfl).1,
   rfl,
   (leniency sampleDb5 (.unknown "f4d55889b1d6") (some 5) sampleMs5 rfl).2.2
     ⟨5, 0⟩ ⟨20⟩⟩

/-- C10: a write succeeds whenever any response at all is received from the
engine, regardless of status or content; RequestFailed arises only when the
request cannot be transmitted, and InvalidUrl only when the document path
cannot be joined to the base URL. -/
theorem insert_error_taxonomy (db : Database) (addr : String)
    (date : DateTimeUtc) (temp : Celsius) :
    (∀ url resp,
      db.joinUrl (insertPath (withNanosecond0 date) addr) = some url →
      db.send ⟨"PUT", url, insertBody addr (withNanosecond0 date) temp⟩ =
        some resp →
      insert_measurement db addr date temp = .ok ()) ∧
    (∀ url,
      db.joinUrl (insertPath (withNanosecond0 date) addr) = some url →
      db.send ⟨"PUT", url, insertBody addr (withNanosecond0 date) temp⟩ =
        none →
      insert_measurement db addr date temp = .error .RequestFailed) ∧
    (db.joinUrl (insertPath (withNanosecond0 date) addr) = none →
      insert_measurement db addr date temp = .error .InvalidUrl) := by
  refine ⟨?_, ?_, ?_⟩
  · intro url resp hu hs
    simp only [insert_measurement, hu, hs]
  · intro url hu hs
    simp only [insert_measurement, hu, hs]
  · intro hu
    simp only [insert_measurement, hu]

/-- Witness for C10: a write answered with an engine-side error (status 500,
error payload) still succeeds; a transport failure gives RequestFailed; a
failing URL join gives InvalidUrl. -/
theorem insert_error_taxonomy_witness :
    insert_measurement sampleDb10 "f4d55889b1d6" ⟨1577836800, 123⟩ ⟨21⟩ =
      .ok () ∧
    insert_measurement sampleDbFail "f4d55889b1d6" ⟨1577836800, 123⟩ ⟨21⟩ =
      .error .RequestFailed ∧
    insert_measurement sampleDbBadUrl "f4d55889b1d6" ⟨1577836800, 123⟩ ⟨21⟩ =
      .error .InvalidUrl :=
  ⟨(insert_error_taxonomy sampleDb10 "f4d55889b1d6" ⟨1577836800, 123⟩ ⟨21⟩).1
      ("http://localhost:9200/" ++
        insertPath (withNanosecond0 ⟨1577836800, 123⟩) "f4d55889b1d6")
      ⟨500, some (Json.obj [("error", .str "index_failure")])⟩ rfl rfl,
   (insert_error_taxonomy sampleDbFail "f4d55889b1d6" ⟨1577836800, 123⟩ ⟨21⟩).2.1
      (insertPath (withNanosecond0 ⟨1577836800, 123⟩) "f4d55889b1d6") rfl rfl,
   (insert_error_taxonomy sampleDbBadUrl "f4d55889b1d6" ⟨1577836800, 123⟩
      ⟨21⟩).2.2 rfl⟩

/-- C4: the write key scheme. Timestamps are truncated to whole seconds, the
bucket is the truncated timestamp formatted YYYYMMDD and the identity is the
truncated timestamp formatted YYYYMMDDTHHMMSS followed by a dash and the
address, so two writes whose timestamps differ only in the sub-second
component share one bucket and one identity (and produce identical write
requests), while timestamps on different calendar days (within the
four-digit-year formatting range) get different buckets. -/
theorem bucket_identity_scheme (addr : String) (d1 d2 : DateTimeUtc) :
    (d1.secs = d2.secs →
      withNanosecond0 d1 = withNanosecond0 d2 ∧
      bucketKey (withNanosecond0 d1) = bucketKey (withNanosecond0 d2) ∧
      documentId (withNanosecond0 d1) addr =
        documentId (withNanosecond0 d2) addr ∧
      ∀ (db : Database) (t : Celsius),
        insert_measurement db addr d1 t = insert_measurement db addr d2 t) ∧
    (∀ y1 m1 dd1 y2 m2 dd2,
      civilFromDays (epochDay d1) = (y1, m1, dd1) →
      civilFromDays (epochDay d2) = (y2, m2, dd2) →
      (y1, m1, dd1) ≠ (y2, m2, dd2) →
      0 ≤ y1 → y1 ≤ 9999 → m1 ≤ 99 → dd1 ≤ 99 →
      0 ≤ y2 → y2 ≤ 9999 → m2 ≤ 99 → dd2 ≤ 99 →
      bucketKey (withNanosecond0 d1) ≠ bucketKey (withNanosecond0 d2)) := by
  constructor
  · intro h
    have htr : withNanosecond0 d1 = withNanosecond0 d2 := by
      cases d1
      cases d2
      simp_all [withNanosecond0]
    refine ⟨htr, by rw [htr], by rw [htr], ?_⟩
    intro db t
    simp only [insert_measurement, htr]
  · intro y1 m1 dd1 y2 m2 dd2 h1 h2 hne ha1 ha2 ha3 ha4 hb1 hb2 hb3 hb4
    have e1 : civilFromDays (epochDay (withNanosecond0 d1)) = (y1, m1, dd1) := h1
    have e2 : civilFromDays (epochDay (withNanosecond0 d2)) = (y2, m2, dd2) := h2
    unfold bucketKey formatYYYYMMDD
    rw [e1, e2]
    intro hcontra
    obtain ⟨gy, gm, gd⟩ := formatYMD_inj y1.toNat m1 dd1 y2.toNat m2 dd2
      (by omega) (by omega) ha3 hb3 ha4 hb4 hcontra
    apply hne
    have gy2 : y1 = y2 := by omega
    rw [gy2, gm, gd]

/-- Witness for C4: two timestamps in the same second with different
sub-second components share the bucket, the identity and the whole write
request, while timestamps on the first and second of January 2020 get
different buckets. -/
theorem bucket_identity_scheme_witness :
    withNanosecond0 ⟨1577836800, 5⟩ = withNanosecond0 ⟨1577836800, 999999⟩ ∧
    bucketKey (withNanosecond0 ⟨1577836800, 5⟩) =
      bucketKey (withNanosecond0 ⟨1577836800, 999999⟩) ∧
    documentId (withNanosecond0 ⟨1577836800, 5⟩) "f4d55889b1d6" =
      documentId (withNanosecond0 ⟨1577836800, 999999⟩) "f4d55889b1d6" ∧
    bucketKey (withNanosecond0 ⟨1577836800, 0⟩) ≠
      bucketKey (withNanosecond0 ⟨1577923200, 0⟩) :=
  ⟨((bucket_identity_scheme "f4d55889b1d6" ⟨1577836800, 5⟩
      ⟨1577836800, 999999⟩).1 rfl).1,
   ((bucket_identity_scheme "f4d55889b1d6" ⟨1577836800, 5⟩
      ⟨1577836800, 999999⟩).1 rfl).2.1,
   ((bucket_identity_scheme "f4d55889b1d6" ⟨1577836800, 5⟩
      ⟨1577836800, 999999⟩).1 rfl).2.2.1,
   (bucket_identity_scheme "f4d55889b1d6" ⟨1577836800, 0⟩
      ⟨1577923200, 0⟩).2 2020 1 1 2020 1 2 (by decide) (by decide)
     (by decide) (by decide) (by decide) (by decide) (by decide)
     (by decide) (by decide) (by decide) (by decide)⟩

end TemperatureApp
